import Mathlib

/-!
Verification of the chronic-care scheduling and notification core.

Shallow embedding of `src/services/medication.service.js` (the
`AppointmentService`, `MedicationService` and `NotificationService`
classes) and `src/workers/notificationScheduler.js`.

Modelling conventions:
* timestamps are natural numbers counting minutes; one day is 1440
  minutes and day 0 of the epoch is a Sunday, so the JS `getDay()`
  becomes `(t / 1440) % 2 ... % 7`;
* SQL rows become list elements, a SQL `UPDATE ... WHERE` becomes a
  `List.map` guarded by the same predicate, a `SELECT ... WHERE` becomes
  a `List.filter`;
* columns irrelevant to every claim (facility details, reasons,
  free-text fields, audit timestamps) are omitted;
* `ConflictError` / `NotFoundError` become an explicit error type.
-/

namespace ChronicCare

/-! ### Appointment data model -/

/-- The appointment status values of the schema
(`chk_appointment_status` in `001_initial_schema.sql`). -/
inductive ApptStatus
  | scheduled
  | confirmed
  | arrived
  | inProgress
  | completed
  | cancelled
  | noShow
deriving DecidableEq, Repr

/-- `status NOT IN ('cancelled', 'no-show')`: the "live" statuses that
occupy the provider's calendar. -/
def ApptStatus.isLive : ApptStatus → Bool
  | .cancelled => false
  | .noShow => false
  | _ => true

/-- One row of the `appointments` table (columns used by the core). -/
structure Appointment where
  id : Nat
  tenant_id : Nat
  patient_id : Nat
  provider_id : Nat
  series_id : Option Nat
  scheduled_start : Nat
  scheduled_end : Nat
  duration_minutes : Nat
  status : ApptStatus
deriving DecidableEq, Repr

/-- Errors surfaced by the appointment service: `ConflictError`
(carrying the colliding appointment id), `NotFoundError`, and the raw
database error thrown when a write violates the unique partial index
`idx_appointments_provider_time` (the enclosing transaction is rolled
back and the error rethrown as-is). -/
inductive SvcError
  | conflict (conflictingAppointmentId : Nat)
  | notFound (id : Nat)
  | uniqueViolation
deriving DecidableEq, Repr

/-- The persistent store touched by the appointment operations:
the `appointments` table and the ids of the `appointment_series` rows. -/
structure DB where
  appointments : List Appointment
  series : List Nat
deriving DecidableEq, Repr

/-! ### Conflict checker

`AppointmentService.checkAppointmentConflicts`: the row predicate is the
`WHERE` clause of its query, verbatim:

```
provider_id = $1 AND status NOT IN ('cancelled', 'no-show') AND (
  (scheduled_start <= $2 AND scheduled_end > $2)
  OR (scheduled_start < $3 AND scheduled_end >= $3)
  OR (scheduled_start >= $2 AND scheduled_end <= $3))
```
with `$2` the proposed start and `$3` the proposed end. -/

/-- The `WHERE` clause of the conflict query, applied to one row. -/
def conflictRow (providerId s e : Nat) (a : Appointment) : Bool :=
  a.provider_id == providerId && a.status.isLive &&
    ((a.scheduled_start ≤ s && a.scheduled_end > s) ||
     (a.scheduled_start < e && a.scheduled_end ≥ e) ||
     (a.scheduled_start ≥ s && a.scheduled_end ≤ e))

/-- Whether the conflict query returns at least one row. -/
def hasConflict (appts : List Appointment) (providerId s e : Nat) : Bool :=
  appts.any (conflictRow providerId s e)

/-- `checkAppointmentConflicts`: throws `ConflictError` carrying
`conflictCheck.rows[0].id` when the query returns rows. -/
def checkAppointmentConflicts (appts : List Appointment) (providerId s e : Nat) :
    Except SvcError Unit :=
  match (appts.filter (conflictRow providerId s e)).head? with
  | some a => .error (.conflict a.id)
  | none => .ok ()

/-- The half-open interval overlap test of the spec:
`existingStart < proposedEnd AND existingEnd > proposedStart`. -/
def overlapsHalfOpen (existingStart existingEnd s e : Nat) : Prop :=
  existingStart < e ∧ existingEnd > s

instance (a b c d : Nat) : Decidable (overlapsHalfOpen a b c d) := by
  unfold overlapsHalfOpen; infer_instance

/-- A row matching the query overlaps the proposal, for a
non-degenerate proposal and a well-formed row. -/
lemma conflictRow_imp_overlap {providerId s e : Nat} {a : Appointment}
    (hwf : a.scheduled_start < a.scheduled_end) (hse : s < e)
    (h : conflictRow providerId s e a = true) :
    a.provider_id = providerId ∧ a.status.isLive = true ∧
      overlapsHalfOpen a.scheduled_start a.scheduled_end s e := by
  simp only [conflictRow, Bool.and_eq_true, Bool.or_eq_true, beq_iff_eq,
    decide_eq_true_eq] at h
  obtain ⟨⟨hp, hl⟩, hcase⟩ := h
  refine ⟨hp, hl, ?_⟩
  unfold overlapsHalfOpen
  omega

/-- An overlapping live row of the provider matches the query,
unconditionally. -/
lemma overlap_imp_conflictRow {providerId s e : Nat} {a : Appointment}
    (hp : a.provider_id = providerId) (hl : a.status.isLive = true)
    (hov : overlapsHalfOpen a.scheduled_start a.scheduled_end s e) :
    conflictRow providerId s e a = true := by
  obtain ⟨h1, h2⟩ := hov
  simp only [conflictRow, Bool.and_eq_true, Bool.or_eq_true, beq_iff_eq,
    decide_eq_true_eq]
  exact ⟨⟨hp, hl⟩, by omega⟩

/-- A live row of the provider with the very `scheduled_start` of the
proposal always matches the query (for `s ≤ e`). Consequently the
unique partial index `idx_appointments_provider_time` on
`(provider_id, scheduled_start) WHERE status NOT IN
('cancelled','no-show')` (`001_initial_schema.sql`) can never fire in
`createAppointment` or `rescheduleAppointment`: any duplicate live key
is already rejected by `checkAppointmentConflicts` inside the same
transaction, so those two writes need no separate index modelling. -/
lemma conflictRow_of_duplicate_key {providerId s e : Nat} {a : Appointment}
    (hse : s ≤ e) (hp : a.provider_id = providerId)
    (hl : a.status.isLive = true) (hs : a.scheduled_start = s) :
    conflictRow providerId s e a = true := by
  simp only [conflictRow, Bool.and_eq_true, Bool.or_eq_true, beq_iff_eq,
    decide_eq_true_eq]
  exact ⟨⟨hp, hl⟩, by omega⟩

/-- `hasConflict` and `checkAppointmentConflicts` agree. -/
lemma checkAppointmentConflicts_ok_iff (appts : List Appointment)
    (providerId s e : Nat) :
    checkAppointmentConflicts appts providerId s e = .ok () ↔
      hasConflict appts providerId s e = false := by
  unfold checkAppointmentConflicts hasConflict
  rcases hfilter : (appts.filter (conflictRow providerId s e)).head? with _ | a
  · simp only [List.head?_eq_none_iff, List.filter_eq_nil_iff] at hfilter
    simp only [List.head?_eq_none_iff]
    constructor
    · intro _
      simp only [List.any_eq_false]
      exact fun a ha => by simpa using hfilter a ha
    · intro _; trivial
  · have hmem : a ∈ appts.filter (conflictRow providerId s e) :=
      List.mem_of_mem_head? (by simp [hfilter])
    rw [List.mem_filter] at hmem
    simp only [hfilter]
    constructor
    · intro h; cases h
    · intro h
      rw [List.any_eq_false] at h
      exact absurd hmem.2 (by simpa using h a hmem.1)

/-- C2: the conflict check reports a conflict iff some live appointment
of the provider overlaps the proposed half-open interval
(`existingStart < proposedEnd AND existingEnd > proposedStart`),
given a non-degenerate proposal and well-formed existing rows. -/
theorem C2_conflict_iff_overlap (appts : List Appointment)
    (providerId s e : Nat) (hse : s < e)
    (hwf : ∀ a ∈ appts, a.scheduled_start < a.scheduled_end) :
    hasConflict appts providerId s e = true ↔
      ∃ a ∈ appts, a.provider_id = providerId ∧ a.status.isLive = true ∧
        overlapsHalfOpen a.scheduled_start a.scheduled_end s e := by
  unfold hasConflict
  rw [List.any_eq_true]
  constructor
  · rintro ⟨a, ha, hrow⟩
    exact ⟨a, ha, conflictRow_imp_overlap (hwf a ha) hse hrow⟩
  · rintro ⟨a, ha, hp, hl, hov⟩
    exact ⟨a, ha, overlap_imp_conflictRow hp hl hov⟩

/-- A live appointment occupying 10:00–10:30 (minutes 600–630). -/
def apptTenAM : Appointment :=
  { id := 1, tenant_id := 1, patient_id := 1, provider_id := 1,
    series_id := none, scheduled_start := 600, scheduled_end := 630,
    duration_minutes := 30, status := .scheduled }

/-- C2 witness: instantiating the equivalence at the back-to-back pair
`[600, 630)` existing versus `[630, 660)` proposed; the right-hand side
is false there, so the second slot is bookable. -/
theorem C2_conflict_iff_overlap_witness :
    hasConflict [apptTenAM] 1 630 660 = false := by
  have h := C2_conflict_iff_overlap [apptTenAM] 1 630 660 (by decide)
    (by intro a ha; fin_cases ha; decide)
  cases hb : hasConflict [apptTenAM] 1 630 660
  · rfl
  · exfalso
    obtain ⟨a, ha, -, -, hov⟩ := h.1 hb
    fin_cases ha
    exact absurd hov (by decide)

/-! ### Appointment lifecycle operations -/

/-- Request body for `createAppointment`. -/
structure CreateApptInput where
  patient_id : Nat
  provider_id : Nat
  scheduled_start : Nat
  duration_minutes : Nat
deriving DecidableEq, Repr

/-- `AppointmentService.createAppointment`: computes
`scheduled_end = scheduled_start + duration`, runs the conflict check
in the same transaction, and inserts the row with status `scheduled`.
`newId` stands for the generated uuid. -/
def createAppointment (db : DB) (tenantId : Nat) (input : CreateApptInput)
    (newId : Nat) : Except SvcError (DB × Appointment) :=
  let endTime := input.scheduled_start + input.duration_minutes
  match checkAppointmentConflicts db.appointments input.provider_id
    input.scheduled_start endTime with
  | .error err => .error err
  | .ok _ =>
    let appt : Appointment :=
      { id := newId, tenant_id := tenantId, patient_id := input.patient_id,
        provider_id := input.provider_id, series_id := none,
        scheduled_start := input.scheduled_start, scheduled_end := endTime,
        duration_minutes := input.duration_minutes, status := .scheduled }
    .ok ({ db with appointments := db.appointments ++ [appt] }, appt)

/-- One member of a series-creation request. -/
structure SeriesMemberInput where
  scheduled_start : Nat
  duration_minutes : Nat
deriving DecidableEq, Repr

/-- Request body for `createAppointmentSeries`. -/
structure CreateSeriesInput where
  patient_id : Nat
  provider_id : Nat
  appointments : List SeriesMemberInput
deriving DecidableEq, Repr

/-- The unique partial index `idx_appointments_provider_time` of
`001_initial_schema.sql`:

```
CREATE UNIQUE INDEX idx_appointments_provider_time
  ON appointments(provider_id, scheduled_start)
  WHERE status NOT IN ('cancelled', 'no-show');
```
a write producing a live row whose `(provider_id, scheduled_start)`
duplicates another live row's key throws. -/
def violatesProviderTimeIndex (appts : List Appointment) (a : Appointment) : Bool :=
  a.status.isLive && appts.any (fun b => b.status.isLive &&
    b.provider_id == a.provider_id && b.scheduled_start == a.scheduled_start)

/-- The sequential member `INSERT`s of `createAppointmentSeries`: a
unique-index violation throws, which the caller turns into a rollback
of the whole transaction. -/
def insertSeriesMembers (appts : List Appointment) :
    List Appointment → Except SvcError (List Appointment)
  | [] => .ok appts
  | a :: rest =>
    if violatesProviderTimeIndex appts a then .error .uniqueViolation
    else insertSeriesMembers (appts ++ [a]) rest

/-- `AppointmentService.createAppointmentSeries`: inserts the series
row, then inserts each member with status `scheduled` inside the same
transaction. The source performs no conflict check on any member; the
only way a member can fail is the unique partial index, when its
`scheduled_start` exactly equals a live row's start for the provider —
then everything, series row included, rolls back. `seriesId` and
`apptIds` stand for the generated uuids. -/
def createAppointmentSeries (db : DB) (tenantId : Nat)
    (input : CreateSeriesInput) (seriesId : Nat) (apptIds : List Nat) :
    Except SvcError (DB × List Appointment) :=
  let newAppts := (input.appointments.zip apptIds).map (fun m =>
    { id := m.2, tenant_id := tenantId, patient_id := input.patient_id,
      provider_id := input.provider_id, series_id := some seriesId,
      scheduled_start := m.1.scheduled_start,
      scheduled_end := m.1.scheduled_start + m.1.duration_minutes,
      duration_minutes := m.1.duration_minutes,
      status := .scheduled : Appointment })
  match insertSeriesMembers db.appointments newAppts with
  | .error err => .error err
  | .ok appts2 =>
    .ok ({ appointments := appts2, series := db.series ++ [seriesId] }, newAppts)

/-- The dynamic field list of `updateAppointment`: every field present
is written verbatim, with no conflict check and no status-transition
check. -/
structure UpdateApptInput where
  scheduled_start : Option Nat
  scheduled_end : Option Nat
  duration_minutes : Option Nat
  status : Option ApptStatus
deriving DecidableEq, Repr

/-- Applying the dynamically-built `SET` clause to one row. -/
def applyUpdate (u : UpdateApptInput) (a : Appointment) : Appointment :=
  { a with
    scheduled_start := u.scheduled_start.getD a.scheduled_start,
    scheduled_end := u.scheduled_end.getD a.scheduled_end,
    duration_minutes := u.duration_minutes.getD a.duration_minutes,
    status := u.status.getD a.status }

/-- The row selector `WHERE tenant_id = $1 AND id = $2`. -/
def rowMatches (tenantId apptId : Nat) (a : Appointment) : Bool :=
  a.tenant_id == tenantId && a.id == apptId

/-- `AppointmentService.updateAppointment`: loads the current row
(`NotFoundError` when absent) and applies the caller-supplied fields
directly. -/
def updateAppointment (db : DB) (tenantId apptId : Nat)
    (u : UpdateApptInput) : Except SvcError DB :=
  match db.appointments.find? (rowMatches tenantId apptId) with
  | none => .error (.notFound apptId)
  | some _ =>
    let appts2 := db.appointments.map
      (fun a => if rowMatches tenantId apptId a then applyUpdate u a else a)
    .ok { db with appointments := appts2 }

/-- `AppointmentService.rescheduleAppointment`: loads the appointment
(`NotFoundError` when absent), conflict-checks the new interval against
the whole table — the query has no `excludeAppointmentId`, so the
appointment's own row is scanned too — and updates start, end and
duration. -/
def rescheduleAppointment (db : DB) (tenantId apptId newStartTime duration : Nat) :
    Except SvcError (DB × Appointment) :=
  match db.appointments.find? (rowMatches tenantId apptId) with
  | none => .error (.notFound apptId)
  | some appt =>
    let endTime := newStartTime + duration
    match checkAppointmentConflicts db.appointments appt.provider_id
      newStartTime endTime with
    | .error err => .error err
    | .ok _ =>
      let appt2 : Appointment :=
        { appt with scheduled_start := newStartTime, scheduled_end := endTime, duration_minutes := duration }
      let appts2 := db.appointments.map
        (fun a => if rowMatches tenantId apptId a then
          { a with scheduled_start := newStartTime, scheduled_end := endTime, duration_minutes := duration }
        else a)
      .ok ({ db with appointments := appts2 }, appt2)

/-- `AppointmentService.cancelAppointment`: a single `UPDATE ... SET
status = 'cancelled'` guarded only by tenant and id — there is no check
of the current status. -/
def cancelAppointment (db : DB) (tenantId apptId : Nat) :
    Except SvcError DB :=
  match db.appointments.find? (rowMatches tenantId apptId) with
  | none => .error (.notFound apptId)
  | some _ =>
    let appts2 := db.appointments.map
      (fun a => if rowMatches tenantId apptId a then
        { a with status := .cancelled } else a)
    .ok { db with appointments := appts2 }

/-- `AppointmentService.checkinAppointment`: a single `UPDATE ... SET
status = 'arrived'` guarded only by tenant and id — again with no check
of the current status. -/
def checkinAppointment (db : DB) (tenantId apptId : Nat) :
    Except SvcError DB :=
  match db.appointments.find? (rowMatches tenantId apptId) with
  | none => .error (.notFound apptId)
  | some _ =>
    let appts2 := db.appointments.map
      (fun a => if rowMatches tenantId apptId a then
        { a with status := .arrived } else a)
    .ok { db with appointments := appts2 }

/-! ### The no-double-booking invariant -/

/-- Two appointments are calendar-compatible when they do not claim the
same provider with overlapping half-open intervals while both live. -/
def calCompat (a b : Appointment) : Prop :=
  a.provider_id = b.provider_id → a.status.isLive = true →
    b.status.isLive = true →
      ¬(a.scheduled_start < b.scheduled_end ∧ b.scheduled_start < a.scheduled_end)

instance (a b : Appointment) : Decidable (calCompat a b) := by
  unfold calCompat; infer_instance

/-- `calCompat` is symmetric. -/
lemma calCompat_symm {a b : Appointment} (h : calCompat a b) : calCompat b a := by
  unfold calCompat at h ⊢
  intro hp hlb hla hov
  exact h hp.symm hla hlb ⟨hov.2, hov.1⟩

/-- The table invariant: for any provider, no two live appointments
have overlapping `[start, end)` intervals. -/
def NoDoubleBooking (l : List Appointment) : Prop :=
  l.Pairwise calCompat

instance (l : List Appointment) : Decidable (NoDoubleBooking l) := by
  unfold NoDoubleBooking; infer_instance

/-- Primary-key uniqueness of the `(tenant_id, id)` pair. -/
def UniqueKeys (l : List Appointment) : Prop :=
  l.Pairwise (fun a b => a.tenant_id ≠ b.tenant_id ∨ a.id ≠ b.id)

instance (l : List Appointment) : Decidable (UniqueKeys l) := by
  unfold UniqueKeys; infer_instance

/-! ### Preservation of the invariant by the conflict-checked operations -/

/-- A passed conflict check rules out every overlapping live row of the
provider. -/
lemma no_conflict_of_check_ok {appts : List Appointment} {pid s e : Nat}
    (h : checkAppointmentConflicts appts pid s e = .ok ())
    {a : Appointment} (ha : a ∈ appts) (hp : a.provider_id = pid)
    (hl : a.status.isLive = true) :
    ¬(a.scheduled_start < e ∧ s < a.scheduled_end) := by
  intro hov
  have hrow := overlap_imp_conflictRow hp hl ⟨hov.1, hov.2⟩
  have hfalse := (checkAppointmentConflicts_ok_iff appts pid s e).1 h
  rw [hasConflict, List.any_eq_false] at hfalse
  exact absurd hrow (by simpa using hfalse a ha)

/-- Pointwise strengthening of `Pairwise` using membership. -/
lemma pairwise_imp_mem {α : Type} {R S : α → α → Prop} :
    ∀ {l : List α}, (∀ a b, a ∈ l → b ∈ l → R a b → S a b) →
      l.Pairwise R → l.Pairwise S
  | [], _, _ => .nil
  | x :: xs, H, .cons hx hxs =>
    .cons (fun b hb => H x b (.head _) (.tail _ hb) (hx b hb))
      (pairwise_imp_mem (fun a b ha hb => H a b (.tail _ ha) (.tail _ hb)) hxs)

/-- `createAppointment` preserves the no-double-booking invariant. -/
lemma createAppointment_preserves {db db2 : DB} {tenantId newId : Nat}
    {input : CreateApptInput} {ap : Appointment}
    (hinv : NoDoubleBooking db.appointments)
    (h : createAppointment db tenantId input newId = .ok (db2, ap)) :
    NoDoubleBooking db2.appointments := by
  unfold createAppointment at h
  dsimp only at h
  split at h
  · cases h
  · rename_i u hchk
    cases u
    simp only [Except.ok.injEq, Prod.mk.injEq] at h
    obtain ⟨rfl, rfl⟩ := h
    rw [NoDoubleBooking, List.pairwise_append]
    refine ⟨hinv, List.pairwise_singleton _ _, ?_⟩
    intro a ha b hb
    simp only [List.mem_singleton] at hb
    subst hb
    intro hp hla _hlb hov
    exact no_conflict_of_check_ok hchk ha hp hla ⟨hov.1, hov.2⟩

/-- `rescheduleAppointment` preserves the no-double-booking invariant
(under primary-key uniqueness of the table). -/
lemma rescheduleAppointment_preserves {db db2 : DB}
    {tenantId apptId ns d : Nat} {ap : Appointment}
    (huniq : UniqueKeys db.appointments)
    (hinv : NoDoubleBooking db.appointments)
    (h : rescheduleAppointment db tenantId apptId ns d = .ok (db2, ap)) :
    NoDoubleBooking db2.appointments := by
  unfold rescheduleAppointment at h
  split at h
  · cases h
  · rename_i appt hfind
    dsimp only at h
    split at h
    · cases h
    · rename_i u hchk
      cases u
      simp only [Except.ok.injEq, Prod.mk.injEq] at h
      obtain ⟨rfl, rfl⟩ := h
      have happt_mem : appt ∈ db.appointments := List.mem_of_find?_eq_some hfind
      have happt_match : rowMatches tenantId apptId appt = true :=
        List.find?_some hfind
      rw [NoDoubleBooking, List.pairwise_map]
      have hcomb : db.appointments.Pairwise
          (fun a b => calCompat a b ∧
            (a.tenant_id ≠ b.tenant_id ∨ a.id ≠ b.id)) := hinv.and huniq
      refine pairwise_imp_mem ?_ hcomb
      intro a b ha hb ⟨hcab, hkey⟩
      by_cases hma : rowMatches tenantId apptId a = true <;>
        by_cases hmb : rowMatches tenantId apptId b = true <;>
          simp only [hma, hmb, if_pos, if_neg, Bool.not_eq_true, ite_true,
            ite_false, if_false]
      · -- both rows match the key: impossible under key uniqueness
        exfalso
        simp only [rowMatches, Bool.and_eq_true, beq_iff_eq] at hma hmb
        rcases hkey with hk | hk
        · exact hk (hma.1.trans hmb.1.symm)
        · exact hk (hma.2.trans hmb.2.symm)
      · -- only `a` is rescheduled; by uniqueness `a` is the found row
        have haeq : a = appt := by
          by_contra hne
          have hkne := huniq.forall
            (fun x y hxy => hxy.imp Ne.symm Ne.symm) ha happt_mem hne
          simp only [rowMatches, Bool.and_eq_true, beq_iff_eq]
            at hma happt_match
          rcases hkne with hk | hk
          · exact hk (hma.1.trans happt_match.1.symm)
          · exact hk (hma.2.trans happt_match.2.symm)
        intro hp hla hlb hov
        refine no_conflict_of_check_ok hchk hb ?_ hlb ⟨hov.2, hov.1⟩
        simpa [haeq] using hp.symm
      · -- only `b` is rescheduled
        have hbeq : b = appt := by
          by_contra hne
          have hkne := huniq.forall
            (fun x y hxy => hxy.imp Ne.symm Ne.symm) hb happt_mem hne
          simp only [rowMatches, Bool.and_eq_true, beq_iff_eq]
            at hmb happt_match
          rcases hkne with hk | hk
          · exact hk (hmb.1.trans happt_match.1.symm)
          · exact hk (hmb.2.trans happt_match.2.symm)
        intro hp hla hlb hov
        refine no_conflict_of_check_ok hchk ha ?_ hla ⟨hov.1, hov.2⟩
        simpa [hbeq] using hp
      · exact hcab

/-- `cancelAppointment` preserves the no-double-booking invariant: it
only shrinks the set of live appointments. -/
lemma cancelAppointment_preserves {db db2 : DB} {tenantId apptId : Nat}
    (hinv : NoDoubleBooking db.appointments)
    (h : cancelAppointment db tenantId apptId = .ok db2) :
    NoDoubleBooking db2.appointments := by
  unfold cancelAppointment at h
  split at h
  · cases h
  · simp only [Except.ok.injEq] at h
    subst h
    rw [NoDoubleBooking, List.pairwise_map]
    refine pairwise_imp_mem ?_ hinv
    intro a b _ha _hb hcab
    by_cases hma : rowMatches tenantId apptId a = true <;>
      by_cases hmb : rowMatches tenantId apptId b = true <;>
        simp only [hma, hmb, ite_true, ite_false] <;>
          intro hp hla hlb hov
    · cases hla
    · cases hla
    · cases hlb
    · exact hcab hp hla hlb hov

/-- C1 (amended): the conflict-checked operations `createAppointment`
and `rescheduleAppointment`, and the live-set-shrinking
`cancelAppointment`, preserve the per-provider no-double-booking
invariant; `createAppointmentSeries`, `updateAppointment` and
`checkinAppointment` (see the counterexample) do not. -/
theorem C1_amended :
    (∀ (db db2 : DB) (tenantId newId : Nat) (input : CreateApptInput)
      (ap : Appointment), NoDoubleBooking db.appointments →
      createAppointment db tenantId input newId = .ok (db2, ap) →
      NoDoubleBooking db2.appointments) ∧
    (∀ (db db2 : DB) (tenantId apptId ns d : Nat) (ap : Appointment),
      UniqueKeys db.appointments → NoDoubleBooking db.appointments →
      rescheduleAppointment db tenantId apptId ns d = .ok (db2, ap) →
      NoDoubleBooking db2.appointments) ∧
    (∀ (db db2 : DB) (tenantId apptId : Nat),
      NoDoubleBooking db.appointments →
      cancelAppointment db tenantId apptId = .ok db2 →
      NoDoubleBooking db2.appointments) :=
  ⟨fun _ _ _ _ _ _ hinv h => createAppointment_preserves hinv h,
   fun _ _ _ _ _ _ _ huniq hinv h => rescheduleAppointment_preserves huniq hinv h,
   fun _ _ _ _ hinv h => cancelAppointment_preserves hinv h⟩

/-- The empty store. -/
def exDb0 : DB := { appointments := [], series := [] }

/-- A creation request: provider 1, 10:00–11:00 (minutes 600–660). -/
def exCreateInput : CreateApptInput :=
  { patient_id := 1, provider_id := 1, scheduled_start := 600,
    duration_minutes := 60 }

/-- The row `createAppointment` persists for `exCreateInput`. -/
def exA1 : Appointment :=
  { id := 1, tenant_id := 1, patient_id := 1, provider_id := 1,
    series_id := none, scheduled_start := 600, scheduled_end := 660,
    duration_minutes := 60, status := .scheduled }

/-- The store holding only `exA1`. -/
def exDb1 : DB := { appointments := [exA1], series := [] }

/-- A one-member series request at `[630, 690)`: it overlaps `exA1`'s
`[600, 660)` but starts at a different minute, so the unique partial
index on `(provider_id, scheduled_start)` does not fire. -/
def exSeriesInput : CreateSeriesInput :=
  { patient_id := 2, provider_id := 1,
    appointments := [{ scheduled_start := 630, duration_minutes := 60 }] }

/-- The member row the series insert persists. -/
def exA5 : Appointment :=
  { id := 5, tenant_id := 1, patient_id := 2, provider_id := 1,
    series_id := some 7, scheduled_start := 630, scheduled_end := 690,
    duration_minutes := 60, status := .scheduled }

/-- The store after the series insert: two live overlapping rows. -/
def exDb2 : DB := { appointments := [exA1, exA5], series := [7] }

/-- C1 counterexample: from the empty store, `createAppointment` books
provider 1 at `[600, 660)`; `createAppointmentSeries` then succeeds with
a member at the overlapping slot `[630, 690)` — no member is
conflict-checked, and the unique index only guards *identical* start
minutes — leaving a reachable state that violates the invariant. -/
theorem C1_counterexample :
    createAppointment exDb0 1 exCreateInput 1 = .ok (exDb1, exA1) ∧
    createAppointmentSeries exDb1 1 exSeriesInput 7 [5] = .ok (exDb2, [exA5]) ∧
    ¬ NoDoubleBooking exDb2.appointments := by
  exact ⟨rfl, rfl, by decide⟩

/-- `exA1` rescheduled to `[800, 830)`. -/
def exA1r : Appointment :=
  { exA1 with scheduled_start := 800, scheduled_end := 830, duration_minutes := 30 }

/-- `exA1` cancelled. -/
def exA1c : Appointment := { exA1 with status := ApptStatus.cancelled }

/-- C1 witness: the three preservation statements applied at concrete
stores — creating into the empty store, rescheduling `exA1` to
`[800, 830)`, and cancelling `exA1`. -/
theorem C1_amended_witness :
    NoDoubleBooking exDb1.appointments ∧
    NoDoubleBooking [exA1r] ∧
    NoDoubleBooking [exA1c] :=
  ⟨C1_amended.1 exDb0 exDb1 1 1 exCreateInput exA1 (by decide) rfl,
   C1_amended.2.1 exDb1 ⟨[exA1r], []⟩ 1 1 800 30 exA1r
     (by decide) (by decide) rfl,
   C1_amended.2.2 exDb1 ⟨[exA1c], []⟩
     1 1 (by decide) rfl⟩

/-- C3: rescheduling `exA1` (the only appointment in the store, provider
1 at `[600, 660)`) to the overlapping slot `[630, 690)` fails with a
`ConflictError` naming `exA1` itself — the conflict scan has no
`excludeAppointmentId` — even though no other live appointment overlaps
the target interval. -/
theorem C3_reschedule_scans_own_row :
    rescheduleAppointment exDb1 1 1 630 60 = .error (.conflict 1) ∧
    hasConflict (exDb1.appointments.filter (fun a => a.id ≠ 1)) 1 630 690
      = false :=
  ⟨rfl, by decide⟩

/-- An existing booking for provider 1 at `[1000, 1030)`. -/
def exB0 : Appointment :=
  { id := 2, tenant_id := 1, patient_id := 3, provider_id := 1,
    series_id := none, scheduled_start := 1000, scheduled_end := 1030,
    duration_minutes := 30, status := .scheduled }

/-- The store holding only `exB0`. -/
def exDb4 : DB := { appointments := [exB0], series := [] }

/-- A five-member series request whose fourth member `[1015, 1045)`
collides with `exB0`'s `[1000, 1030)` while starting at a different
minute, so the unique partial index does not fire. -/
def exSeries5 : CreateSeriesInput :=
  { patient_id := 4, provider_id := 1, appointments :=
      [{ scheduled_start := 600, duration_minutes := 30 },
       { scheduled_start := 630, duration_minutes := 30 },
       { scheduled_start := 660, duration_minutes := 30 },
       { scheduled_start := 1015, duration_minutes := 30 },
       { scheduled_start := 720, duration_minutes := 30 }] }

/-- The five member rows the series insert persists. -/
def exSeries5Rows : List Appointment :=
  [{ id := 11, tenant_id := 1, patient_id := 4, provider_id := 1,
     series_id := some 9, scheduled_start := 600, scheduled_end := 630,
     duration_minutes := 30, status := .scheduled },
   { id := 12, tenant_id := 1, patient_id := 4, provider_id := 1,
     series_id := some 9, scheduled_start := 630, scheduled_end := 660,
     duration_minutes := 30, status := .scheduled },
   { id := 13, tenant_id := 1, patient_id := 4, provider_id := 1,
     series_id := some 9, scheduled_start := 660, scheduled_end := 690,
     duration_minutes := 30, status := .scheduled },
   { id := 14, tenant_id := 1, patient_id := 4, provider_id := 1,
     series_id := some 9, scheduled_start := 1015, scheduled_end := 1045,
     duration_minutes := 30, status := .scheduled },
   { id := 15, tenant_id := 1, patient_id := 4, provider_id := 1,
     series_id := some 9, scheduled_start := 720, scheduled_end := 750,
     duration_minutes := 30, status := .scheduled }]

/-- The store after the series insert: all six rows plus the series row. -/
def exDb4b : DB := { appointments := exB0 :: exSeries5Rows, series := [9] }

/-- A one-member series request duplicating `exB0`'s exact start minute
— the only collision shape the unique partial index catches. -/
def exSeriesDup : CreateSeriesInput :=
  { patient_id := 4, provider_id := 1,
    appointments := [{ scheduled_start := 1000, duration_minutes := 30 }] }

/-- C4: the fourth member of `exSeries5` conflicts (half-open overlap)
with the existing booking `exB0`, yet `createAppointmentSeries`
succeeds, persisting all five member rows and the series row and
breaking the invariant — the code never conflict-checks series members.
Only a member whose `scheduled_start` *exactly equals* a live row's
start is stopped, by the unique partial index, which then rolls the
whole call back (last conjunct) — not by any conflict check. -/
theorem C4_series_members_not_conflict_checked :
    hasConflict exDb4.appointments 1 1015 1045 = true ∧
    createAppointmentSeries exDb4 1 exSeries5 9 [11, 12, 13, 14, 15]
      = .ok (exDb4b, exSeries5Rows) ∧
    exDb4b.appointments.length = 6 ∧ exDb4b.series = [9] ∧
    ¬ NoDoubleBooking exDb4b.appointments ∧
    createAppointmentSeries exDb4 1 exSeriesDup 10 [16]
      = .error .uniqueViolation :=
  ⟨by decide, rfl, rfl, rfl, by decide, rfl⟩

/-- A completed appointment for provider 1. -/
def exA9 : Appointment :=
  { id := 9, tenant_id := 1, patient_id := 1, provider_id := 1,
    series_id := none, scheduled_start := 600, scheduled_end := 660,
    duration_minutes := 60, status := .completed }

/-- The store holding only `exA9`. -/
def exDb5 : DB := { appointments := [exA9], series := [] }

/-- C5: there is no allowed-transition table anywhere in the service:
`cancelAppointment` on a `completed` appointment succeeds and overwrites
the terminal status with `cancelled`, `checkinAppointment` on a
`completed` — or even on the resulting `cancelled` — appointment
succeeds and sets `arrived`. -/
theorem C5_no_transition_validation :
    cancelAppointment exDb5 1 9
      = .ok { appointments := [{ exA9 with status := .cancelled }], series := [] } ∧
    checkinAppointment exDb5 1 9
      = .ok { appointments := [{ exA9 with status := .arrived }], series := [] } ∧
    checkinAppointment { appointments := [{ exA9 with status := .cancelled }], series := [] } 1 9
      = .ok { appointments := [{ exA9 with status := .arrived }], series := [] } :=
  ⟨rfl, rfl, rfl⟩

/-! ### Notification dispatcher (`NotificationService.processNotification`) -/

/-- Delivery statuses of the `notifications` table
(`chk_notification_status`). -/
inductive DStatus
  | pending
  | queued
  | delivered
  | failed
deriving DecidableEq, Repr

/-- Delivery channels (`chk_notification_channel`). -/
inductive Channel
  | sms
  | email
  | push
deriving DecidableEq, Repr

/-- The recipient's `communication_preferences`. A JS `0` stored in
`quiet_hours_start`/`quiet_hours_end` is falsy, so `x || 22` and
`x || 8` replace both absent and zero values; the options model the
absent case and the zero case is folded in explicitly below. -/
structure Prefs where
  quiet_hours_enabled : Bool
  quiet_hours_start : Option Nat
  quiet_hours_end : Option Nat
  preferred_channel : Option Channel
deriving DecidableEq, Repr

/-- Presence of the recipient's `contact_info` fields. -/
structure ContactInfo where
  phone : Bool
  email : Bool
  device_token : Bool
deriving DecidableEq, Repr

/-- JS `x || d` over an optional hour field: `none` and `0` both give
the default. -/
def hourOrDefault (x : Option Nat) (d : Nat) : Nat :=
  match x with
  | none => d
  | some v => if v = 0 then d else v

/-- `NotificationService.isQuietHours`, verbatim:

```
if (quietStart < quietEnd) return hour >= quietStart || hour < quietEnd;
else return hour >= quietStart && hour < quietEnd;
```
(defaults 22 and 8). -/
def isQuietHours (prefs : Prefs) (currentHour : Nat) : Bool :=
  if !prefs.quiet_hours_enabled then false
  else
    let quietStart := hourOrDefault prefs.quiet_hours_start 22
    let quietEnd := hourOrDefault prefs.quiet_hours_end 8
    if quietStart < quietEnd then
      currentHour ≥ quietStart || currentHour < quietEnd
    else
      currentHour ≥ quietStart && currentHour < quietEnd

/-- Modelled from the spec: membership of an hour in a quiet-hours
window `[startHour, endHour)` "with wrap-around supported — window may
cross midnight", e.g. start 22, end 8 covers hours 22, 23, 0..7. -/
def quietWindowContains (startHour endHour currentHour : Nat) : Bool :=
  if startHour < endHour then
    startHour ≤ currentHour && currentHour < endHour
  else
    currentHour ≥ startHour || currentHour < endHour

/-- `NotificationService.selectChannel`: the preferred channel when its
contact field is present, otherwise the first of phone/email/device
token; `none` when no contact field exists. -/
def selectChannel (prefs : Prefs) (contact : ContactInfo) : Option Channel :=
  let preferredChannel := prefs.preferred_channel.getD .sms
  if preferredChannel = .sms && contact.phone then some .sms
  else if preferredChannel = .email && contact.email then some .email
  else if preferredChannel = .push && contact.device_token then some .push
  else if contact.phone then some .sms
  else if contact.email then some .email
  else if contact.device_token then some .push
  else none

/-- The mutable columns of one `notifications` row that the dispatcher
touches. -/
structure NotifState where
  delivery_status : DStatus
  retry_count : Nat
  scheduled_send_time : Nat
  sent_at : Option Nat
deriving DecidableEq, Repr

/-- `NotificationService.processNotification` on one row, with the
environment (recipient preferences and contact info, wall-clock hour
and time, transport outcome) passed explicitly:
already-`delivered` rows are skipped; quiet hours defer by +2 h and
reset to `pending` without touching `retry_count`; a missing channel
fails the row without touching `retry_count`; a transport success
delivers; a transport failure increments `retry_count`, going terminal
`failed` at ≥ 3 and otherwise back to `pending` at `now` + 30 min.
The terminal branch issues `UPDATE ... SET retry_count = $2` with the
new count; the schema constraint `chk_retry_count`
(`retry_count >= 0 AND retry_count <= 3`, `001_initial_schema.sql`)
accepts that write only when the new count is exactly 3 — writing 4
throws, the whole transaction of `processNotification` rolls back, and
the row is left unchanged (the error propagates to the worker). -/
def processNotification (n : NotifState) (prefs : Prefs)
    (contact : ContactInfo) (hour now : Nat) (transportOk : Bool) :
    NotifState :=
  if n.delivery_status = .delivered then n
  else if isQuietHours prefs hour then
    { n with scheduled_send_time := n.scheduled_send_time + 120, delivery_status := .pending }
  else
    match selectChannel prefs contact with
    | none => { n with delivery_status := .failed }
    | some _ =>
      if transportOk then
        { n with delivery_status := .delivered, sent_at := some now }
      else
        let newRetryCount := n.retry_count + 1
        if newRetryCount ≥ 3 then
          if newRetryCount ≤ 3 then
            { n with delivery_status := .failed, retry_count := newRetryCount }
          else n
        else
          { n with delivery_status := .pending, retry_count := newRetryCount, scheduled_send_time := now + 30 }

/-- Quiet-hours preferences 22:00 → 08:00 (the code's own defaults). -/
def exPrefsQuiet : Prefs :=
  { quiet_hours_enabled := true, quiet_hours_start := some 22,
    quiet_hours_end := some 8, preferred_channel := none }

/-- C6: the two branches of `isQuietHours` are swapped. For the
wrap-around window 22 → 8 the code evaluates `hour >= 22 && hour < 8`,
which no hour satisfies, so at hour 23 — inside the window — no
deferral happens; conversely for the same-day window 1 → 6 the code
evaluates `hour >= 1 || hour < 6`, which every hour satisfies, so at
hour 12 — outside the window — it defers. -/
theorem C6_quiet_hours_branches_swapped :
    isQuietHours exPrefsQuiet 23 = false ∧
    quietWindowContains 22 8 23 = true ∧
    isQuietHours { exPrefsQuiet with quiet_hours_start := some 1, quiet_hours_end := some 6 } 12 = true ∧
    quietWindowContains 1 6 12 = false := by
  exact ⟨rfl, rfl, rfl, rfl⟩

/-! ### Scheduler / dispatcher / retry-sweep system (claim C7)

`notificationScheduler.js` publishes exactly one queue message per
`pending → queued` transition (`queueNotification`), and the processor
worker invokes `processNotification` once per consumed message, so the
system state couples the row with the number of outstanding queue
messages. -/

/-- One notification row together with its outstanding queue messages. -/
structure SysState where
  n : NotifState
  msgs : Nat
deriving DecidableEq, Repr

/-- The three kinds of steps acting on a notification:
* `scheduler now publishOk` — `getPendingNotifications` +
  `queueNotification`: a due `pending` row is set to `queued` and a
  message is published; on publish failure the row is set to `failed`
  (rolled back and updated, `retry_count` untouched);
* `process ...` — the worker consumes one message and runs
  `processNotification`;
* `sweep now stale` — `retryFailedNotifications`: a `failed` row with
  `retry_count < 3` whose last update is stale is reset to `pending`
  with `retry_count + 1` and `scheduled_send_time = now`. -/
inductive SysStep
  | scheduler (now : Nat) (publishOk : Bool)
  | process (prefs : Prefs) (contact : ContactInfo) (hour now : Nat) (transportOk : Bool)
  | sweep (now : Nat) (stale : Bool)

/-- The transition function of the notification pipeline. -/
def sysStep (s : SysState) : SysStep → SysState
  | .scheduler now publishOk =>
    if s.n.delivery_status = .pending ∧ s.n.scheduled_send_time ≤ now + 5 then
      if publishOk then
        { n := { s.n with delivery_status := .queued }, msgs := s.msgs + 1 }
      else
        { s with n := { s.n with delivery_status := .failed } }
    else s
  | .process prefs contact hour now transportOk =>
    if s.msgs = 0 then s
    else { n := processNotification s.n prefs contact hour now transportOk, msgs := s.msgs - 1 }
  | .sweep now stale =>
    if s.n.delivery_status = .failed ∧ s.n.retry_count < 3 ∧ stale then
      { s with n := { s.n with delivery_status := .pending, retry_count := s.n.retry_count + 1, scheduled_send_time := now } }
    else s

/-- A fresh notification row. -/
def initialNotif (t : Nat) : SysState :=
  { n := { delivery_status := .pending, retry_count := 0,
           scheduled_send_time := t, sent_at := none }, msgs := 0 }

/-- The inductive invariant of the pipeline: `retry_count` never
exceeds 3 (the schema constraint `chk_retry_count` rejects any larger
write), and at most one message is outstanding, only for a `queued`
row. -/
def SysInv (s : SysState) : Prop :=
  s.n.retry_count ≤ 3 ∧
  (s.msgs = 0 ∨ (s.msgs = 1 ∧ s.n.delivery_status = .queued))

instance (s : SysState) : Decidable (SysInv s) := by
  unfold SysInv; infer_instance

/-- Every pipeline step preserves `SysInv`. -/
lemma sysStep_preserves (s : SysState) (st : SysStep) (hinv : SysInv s) :
    SysInv (sysStep s st) := by
  obtain ⟨⟨ds, rc, t, sa⟩, msgs⟩ := s
  obtain ⟨hretry, hmsgs⟩ := hinv
  cases st with
  | scheduler now publishOk =>
    simp only [sysStep]
    split
    · rename_i hcond
      obtain ⟨hds, -⟩ := hcond
      subst hds
      have hm0 : msgs = 0 := by
        rcases hmsgs with h | ⟨-, hq⟩
        · exact h
        · cases hq
      subst hm0
      cases publishOk
      · exact ⟨hretry, Or.inl rfl⟩
      · exact ⟨hretry, Or.inr ⟨rfl, rfl⟩⟩
    · exact ⟨hretry, hmsgs⟩
  | process prefs contact hour now transportOk =>
    simp only [sysStep]
    split
    · exact ⟨hretry, hmsgs⟩
    · rename_i hmne
      rcases hmsgs with h0 | ⟨h1, hq⟩
      · exact absurd h0 hmne
      · subst h1
        subst hq
        unfold processNotification
        simp only [reduceCtorEq, if_false, ite_false]
        split
        · exact ⟨hretry, Or.inl rfl⟩
        · split
          · exact ⟨hretry, Or.inl rfl⟩
          · split
            · exact ⟨hretry, Or.inl rfl⟩
            · split
              · split
                · rename_i hge hle
                  exact ⟨show rc + 1 ≤ 3 from hle, Or.inl rfl⟩
                · exact ⟨hretry, Or.inl rfl⟩
              · rename_i hlt
                exact ⟨show rc + 1 ≤ 3 by omega, Or.inl rfl⟩
  | sweep now stale =>
    simp only [sysStep]
    split
    · rename_i hcond
      obtain ⟨hds, hlt, -⟩ := hcond
      refine ⟨show rc + 1 ≤ 3 by omega, ?_⟩
      rcases hmsgs with h0 | ⟨-, hq⟩
      · exact Or.inl h0
      · subst hds
        cases hq
    · exact ⟨hretry, hmsgs⟩

/-- `SysInv` holds along every run. -/
lemma sysInv_foldl (steps : List SysStep) :
    ∀ (s : SysState), SysInv s → SysInv (steps.foldl sysStep s) := by
  induction steps with
  | nil => exact fun s h => h
  | cons st rest ih => exact fun s h => ih _ (sysStep_preserves s st h)

/-- An environment in which no delivery channel is available. -/
def exNoContact : ContactInfo :=
  { phone := false, email := false, device_token := false }

/-- An environment with a phone contact. -/
def exPhoneContact : ContactInfo :=
  { phone := true, email := false, device_token := false }

/-- Preferences with quiet hours disabled. -/
def exPrefsOff : Prefs :=
  { quiet_hours_enabled := false, quiet_hours_start := none,
    quiet_hours_end := none, preferred_channel := none }

/-- A run of the pipeline: three times, the row is queued and then
fails with "no available channel" (which does not touch `retry_count`)
and is swept back to `pending` with `retry_count + 1`, reaching
`pending` with `retry_count = 3`; the fourth dispatch reaches the
transport and fails, but the terminal write of `retry_count = 4`
violates `chk_retry_count` and rolls back. -/
def exRetryTrace : List SysStep :=
  [.scheduler 0 true, .process exPrefsOff exNoContact 12 0 false,
   .sweep 100 true,
   .scheduler 100 true, .process exPrefsOff exNoContact 12 100 false,
   .sweep 200 true,
   .scheduler 200 true, .process exPrefsOff exNoContact 12 200 false,
   .sweep 300 true,
   .scheduler 300 true, .process exPrefsOff exPhoneContact 12 300 false]

/-- C7 counterexample: the trace ends in a channel-transport failure on
a row whose `retry_count` is already 3 (reached through sweeps after
non-incrementing channel failures). The claim demands that this failure
increment `retry_count` and transition the notification to terminal
`failed`; instead the terminal `UPDATE` violates `chk_retry_count`, the
transaction rolls back, and the row is left `queued` with
`retry_count = 3` — neither incremented nor failed. -/
theorem C7_counterexample :
    (exRetryTrace.foldl sysStep (initialNotif 0)).n.delivery_status = .queued ∧
    (exRetryTrace.foldl sysStep (initialNotif 0)).n.delivery_status ≠ .failed ∧
    (exRetryTrace.foldl sysStep (initialNotif 0)).n.retry_count = 3 := by
  exact ⟨rfl, by decide, rfl⟩

/-- C7 (amended): a transport failure on a row with `retry_count < 3`
increments the counter, reaching terminal `failed` at 3 and otherwise
returning to `pending` at `now` + 30 minutes — in particular a first
failure of a fresh row yields `pending` with `retry_count = 1`; the
sweep never resets a `failed` row with `retry_count ≥ 3`; and
`retry_count` never exceeds 3 along any run, enforced by
`chk_retry_count` — but not the way the claim says: a row can reach
`retry_count = 3` while still `pending` (sweeps after "no available
channel" failures do not consume transport attempts), and a transport
failure there does *not* transition it to terminal `failed`: the write
of `retry_count = 4` throws and the row is left unchanged. -/
theorem C7_amended :
    (∀ (n : NotifState) (prefs : Prefs) (contact : ContactInfo)
      (hour now : Nat) (ch : Channel),
      n.delivery_status ≠ .delivered → isQuietHours prefs hour = false →
      selectChannel prefs contact = some ch → n.retry_count < 3 →
      processNotification n prefs contact hour now false =
        (if n.retry_count + 1 ≥ 3 then
          { n with delivery_status := .failed, retry_count := n.retry_count + 1 }
        else
          { n with delivery_status := .pending, retry_count := n.retry_count + 1, scheduled_send_time := now + 30 })) ∧
    (∀ (n : NotifState) (prefs : Prefs) (contact : ContactInfo)
      (hour now : Nat) (ch : Channel),
      n.delivery_status ≠ .delivered → isQuietHours prefs hour = false →
      selectChannel prefs contact = some ch → n.retry_count = 3 →
      processNotification n prefs contact hour now false = n) ∧
    (∀ (s : SysState) (now : Nat) (stale : Bool),
      s.n.delivery_status = .failed → 3 ≤ s.n.retry_count →
      sysStep s (.sweep now stale) = s) ∧
    (∀ (t : Nat) (steps : List SysStep),
      (steps.foldl sysStep (initialNotif t)).n.retry_count ≤ 3) := by
  refine ⟨?_, ?_, ?_, ?_⟩
  · intro n prefs contact hour now ch hnd hq hch h3
    unfold processNotification
    rw [if_neg hnd, hq, hch]
    simp only [Bool.false_eq_true, if_false, ite_false]
    split
    · rw [if_pos (by omega)]
    · rfl
  · intro n prefs contact hour now ch hnd hq hch h3
    unfold processNotification
    rw [if_neg hnd, hq, hch]
    simp only [Bool.false_eq_true, if_false, ite_false]
    rw [if_pos (by omega), if_neg (by omega)]
  · intro s now stale hf h3
    simp only [sysStep]
    rw [if_neg]
    rintro ⟨-, hlt, -⟩
    omega
  · intro t steps
    exact (sysInv_foldl steps (initialNotif t)
      ⟨show (0 : Nat) ≤ 3 by omega, Or.inl rfl⟩).1

/-- A terminally failed notification with an exhausted retry budget. -/
def exFailed3 : SysState :=
  { n := { delivery_status := .failed, retry_count := 3,
           scheduled_send_time := 0, sent_at := none }, msgs := 0 }

/-- C7 witness: the amended statements instantiated concretely — a
fresh row failing its first transport attempt becomes `pending` with
`retry_count = 1` and send time pushed 30 minutes; a `queued` row with
`retry_count = 3` failing transport is left unchanged; a terminal
`failed`/`retry_count = 3` row is untouched by the sweep; and a short
concrete run stays within the retry bound. -/
theorem C7_amended_witness :
    processNotification (initialNotif 0).n exPrefsOff exPhoneContact 12 40 false =
      { delivery_status := .pending, retry_count := 1,
        scheduled_send_time := 70, sent_at := none } ∧
    processNotification
      { delivery_status := .queued, retry_count := 3,
        scheduled_send_time := 300, sent_at := none }
      exPrefsOff exPhoneContact 12 400 false =
      { delivery_status := .queued, retry_count := 3,
        scheduled_send_time := 300, sent_at := none } ∧
    sysStep exFailed3 (.sweep 50 true) = exFailed3 ∧
    ([SysStep.scheduler 0 true].foldl sysStep (initialNotif 0)).n.retry_count ≤ 3 := by
  refine ⟨?_, ?_, ?_, ?_⟩
  · rw [C7_amended.1 (initialNotif 0).n exPrefsOff exPhoneContact 12 40 .sms
      (by decide) (by decide) (by decide) (by decide)]
    rfl
  · exact C7_amended.2.1
      { delivery_status := .queued, retry_count := 3,
        scheduled_send_time := 300, sent_at := none }
      exPrefsOff exPhoneContact 12 400 .sms
      (by decide) (by decide) (by decide) rfl
  · exact C7_amended.2.2.1 exFailed3 50 true rfl (by decide)
  · exact C7_amended.2.2.2 0 [SysStep.scheduler 0 true]

/-! ### Scheduler selection query (`getPendingNotifications`)

```
WHERE delivery_status = 'pending'
AND scheduled_send_time <= NOW() + INTERVAL '5 minutes'
ORDER BY priority DESC, scheduled_send_time ASC
LIMIT 1000
```
`priority` is `VARCHAR(20)` constrained to
`('low', 'medium', 'high', 'urgent')` (`chk_notification_priority`), so
`ORDER BY priority DESC` sorts the *strings* in descending collation
order. -/

/-- Notification priorities (`chk_notification_priority`). -/
inductive NPriority
  | low
  | medium
  | high
  | urgent
deriving DecidableEq, Repr

/-- The stored `VARCHAR` text of a priority. -/
def NPriority.text : NPriority → String
  | .low => "low"
  | .medium => "medium"
  | .high => "high"
  | .urgent => "urgent"

/-- Lexicographic order on character lists — the collation order of the
lowercase ASCII priority strings. -/
def charListLt : List Char → List Char → Bool
  | [], [] => false
  | [], _ :: _ => true
  | _ :: _, [] => false
  | a :: as, b :: bs => if a < b then true else if b < a then false else charListLt as bs

/-- `VARCHAR` comparison of two stored strings. -/
def varcharLt (x y : String) : Bool :=
  charListLt x.toList y.toList

/-- The columns of a `notifications` row used by the selection query. -/
structure NotifRow where
  id : Nat
  priority : NPriority
  scheduled_send_time : Nat
  delivery_status : DStatus
deriving DecidableEq, Repr

/-- `ORDER BY priority DESC, scheduled_send_time ASC` as a row
comparison: `a` is served no later than `b`. -/
def notifOrder (a b : NotifRow) : Prop :=
  varcharLt b.priority.text a.priority.text = true ∨
    (a.priority.text = b.priority.text ∧
      a.scheduled_send_time ≤ b.scheduled_send_time)

instance : DecidableRel notifOrder := by
  unfold notifOrder; infer_instance

/-- `getPendingNotifications` of `notificationScheduler.js`. -/
def getPendingNotifications (rows : List NotifRow) (now : Nat) : List NotifRow :=
  ((rows.filter (fun r =>
      r.delivery_status == .pending && r.scheduled_send_time ≤ now + 5)).insertionSort
    notifOrder).take 1000

/-- Four due pending notifications, one per priority, equal send times. -/
def exNotifRows : List NotifRow :=
  [{ id := 1, priority := .high, scheduled_send_time := 0, delivery_status := .pending },
   { id := 2, priority := .medium, scheduled_send_time := 0, delivery_status := .pending },
   { id := 3, priority := .urgent, scheduled_send_time := 0, delivery_status := .pending },
   { id := 4, priority := .low, scheduled_send_time := 0, delivery_status := .pending }]

/-- C8: sorting the `VARCHAR` column descending serves
`urgent > medium > low > high` — alphabetical order, not the intended
`urgent > high > medium > low`: a `high`-priority notification is
processed after `medium` and even after `low`. -/
theorem C8_priority_sorted_as_text :
    (getPendingNotifications exNotifRows 0).map (fun r => r.id) = [3, 2, 4, 1] ∧
    varcharLt (NPriority.high).text (NPriority.medium).text = true ∧
    varcharLt (NPriority.high).text (NPriority.low).text = true := by
  exact ⟨by decide, by decide, by decide⟩

/-! ### Slot finder (`findAvailableSlots` / `calculateAvailableSlots`)

Calendar modelling: a timestamp is minutes, a day is 1440 minutes and
day 0 of the epoch is a Sunday, so the JS `getDay()` is
`(t / 1440) % 7` and `setHours(h, m, 0, 0)` maps `t` to
`(t / 1440) * 1440 + 60 * h + m`. The `"HH:MM"` strings
`start_time` / `end_time` of a `provider_availability` row appear
pre-split into hour and minute fields. -/

/-- One `provider_availability` row. -/
structure AvailabilityRule where
  provider_id : Nat
  facility_id : Nat
  day_of_week : Nat
  start_hour : Nat
  start_minute : Nat
  end_hour : Nat
  end_minute : Nat
  slot_duration : Nat
  is_available : Bool
  effective_from : Nat
  effective_until : Option Nat
deriving DecidableEq, Repr

/-- The columns the booked-appointments query selects. -/
structure BookedIv where
  provider_id : Nat
  scheduled_start : Nat
  scheduled_end : Nat
deriving DecidableEq, Repr

/-- One slot of the result. -/
structure Slot where
  provider_id : Nat
  facility_id : Nat
  start_time : Nat
  end_time : Nat
  duration_minutes : Nat
deriving DecidableEq, Repr

/-- JS `getDay()` for minute-timestamps (epoch day 0 a Sunday). -/
def dayOfWeek (t : Nat) : Nat := (t / 1440) % 7

/-- Midnight of the calendar day of `t`. -/
def startOfDayMin (t : Nat) : Nat := (t / 1440) * 1440

/-- The day loop `while (currentDate <= end) { ...; currentDate =
addDays(currentDate, 1) }`: the visited timestamps. -/
def dayList (startDate endDate : Nat) : List Nat :=
  if startDate ≤ endDate then
    (List.range ((endDate - startDate) / 1440 + 1)).map (fun k => startDate + 1440 * k)
  else []

/-- The slot walk `while (slotStart < dayEnd) { ...; slotStart =
slotEnd }` with step `dur`: the visited slot starts (for `dur > 0`). -/
def slotStarts (base stop dur : Nat) : List Nat :=
  if base < stop then
    (List.range ((stop - base - 1) / dur + 1)).map (fun i => base + dur * i)
  else []

/-- `AppointmentService.calculateAvailableSlots`: for each day of the
range and each availability rule of that weekday, walk fixed-size slots
and keep those that are strictly in the future and do not overlap
(half-open) a booked interval of the rule's provider. The JS
`avail.slot_duration || 30` makes a falsy (0 / null) duration 30. -/
def calculateAvailableSlots (availability : List AvailabilityRule)
    (booked : List BookedIv) (startDate endDate now : Nat) : List Slot :=
  (dayList startDate endDate).flatMap (fun d =>
    (availability.filter (fun av => av.day_of_week == dayOfWeek d)).flatMap (fun av =>
      let slotDuration := if av.slot_duration = 0 then 30 else av.slot_duration
      let base := startOfDayMin d + av.start_hour * 60 + av.start_minute
      let dayEnd := startOfDayMin d + av.end_hour * 60 + av.end_minute
      ((slotStarts base dayEnd slotDuration).filter (fun s =>
        !((booked.filter (fun b => b.provider_id == av.provider_id)).any
          (fun b => s < b.scheduled_end && s + slotDuration > b.scheduled_start)) &&
        now < s)).map (fun s =>
        { provider_id := av.provider_id, facility_id := av.facility_id,
          start_time := s, end_time := s + slotDuration,
          duration_minutes := slotDuration })))

/-- `AppointmentService.findAvailableSlots`: the availability query
keeps `is_available` rules whose `effective_until` is null or at least
the current date (`effective_from` is never checked); the
booked-appointments query keeps live rows of the tenant whose
`scheduled_start` lies within `[startDate, endDate]` — rows starting
before the range are not fetched even when they extend into it. The
optional facility filter is omitted here (the claims never filter by
facility); the optional provider filter is kept. -/
def findAvailableSlots (db : DB) (rules : List AvailabilityRule)
    (tenantId : Nat) (providerId : Option Nat)
    (startDate endDate today now : Nat) : List Slot :=
  let availability := rules.filter (fun av =>
    (match providerId with | some p => av.provider_id == p | none => true) &&
    av.is_available &&
    (match av.effective_until with | none => true | some u => today ≤ u))
  let booked := (db.appointments.filter (fun a =>
    a.tenant_id == tenantId && a.status.isLive &&
    startDate ≤ a.scheduled_start && a.scheduled_start ≤ endDate &&
    (match providerId with | some p => a.provider_id == p | none => true))).map
    (fun a => { provider_id := a.provider_id,
                scheduled_start := a.scheduled_start,
                scheduled_end := a.scheduled_end : BookedIv })
  calculateAvailableSlots availability booked startDate endDate now

/-- C9 (amended): every returned slot starts strictly in the future and
overlaps no live appointment of its provider *whose `scheduled_start`
lies within the queried `[startDate, endDate]`*; appointments starting
before the range — even extending into it — and rule effective-from
dates are not consulted, so such a slot can still fail the Conflict
Checker (see the counterexample). -/
theorem C9_amended (db : DB) (rules : List AvailabilityRule)
    (tenantId : Nat) (providerId : Option Nat)
    (startDate endDate today now : Nat) (slot : Slot)
    (hslot : slot ∈ findAvailableSlots db rules tenantId providerId
      startDate endDate today now) :
    now < slot.start_time ∧
    ∀ a ∈ db.appointments, a.tenant_id = tenantId →
      a.status.isLive = true → a.provider_id = slot.provider_id →
      startDate ≤ a.scheduled_start → a.scheduled_start ≤ endDate →
      ¬(slot.start_time < a.scheduled_end ∧
        a.scheduled_start < slot.end_time) := by
  unfold findAvailableSlots calculateAvailableSlots at hslot
  simp only [List.mem_flatMap, List.mem_filter, List.mem_map] at hslot
  obtain ⟨d, hd, av, ⟨⟨havrules, havfilter⟩, havday⟩, s, ⟨hs, hcond⟩, hsloteq⟩ := hslot
  subst hsloteq
  simp only [Bool.and_eq_true, Bool.not_eq_true', decide_eq_true_eq] at hcond
  obtain ⟨hnotbooked, hnow⟩ := hcond
  refine ⟨hnow, ?_⟩
  intro a hamem htenant hlive hprov hge hle hov
  simp only [Bool.and_eq_true, decide_eq_true_eq] at havfilter
  rw [List.any_eq_false] at hnotbooked
  have hbmem : (⟨a.provider_id, a.scheduled_start, a.scheduled_end⟩ : BookedIv) ∈
      (db.appointments.filter (fun a => a.tenant_id == tenantId &&
        a.status.isLive && startDate ≤ a.scheduled_start &&
        a.scheduled_start ≤ endDate &&
        (match providerId with | some p => a.provider_id == p | none => true))).map
      (fun a => { provider_id := a.provider_id,
                  scheduled_start := a.scheduled_start,
                  scheduled_end := a.scheduled_end : BookedIv }) := by
    rw [List.mem_map]
    refine ⟨a, ?_, rfl⟩
    rw [List.mem_filter]
    refine ⟨hamem, ?_⟩
    simp only [Bool.and_eq_true, beq_iff_eq, decide_eq_true_eq]
    refine ⟨⟨⟨⟨htenant, hlive⟩, hge⟩, hle⟩, ?_⟩
    cases providerId with
    | none => rfl
    | some p =>
      show (a.provider_id == p) = true
      have hq : (av.provider_id == p) = true := havfilter.1.1
      simp only [beq_iff_eq] at hq ⊢
      exact hprov.trans hq
  have hbprov : ((⟨a.provider_id, a.scheduled_start, a.scheduled_end⟩ : BookedIv).provider_id
      == av.provider_id) = true := by
    simp only [beq_iff_eq]
    exact hprov
  have hbook := hnotbooked _ (List.mem_filter.2 ⟨hbmem, hbprov⟩)
  apply hbook
  simp only [Bool.and_eq_true, decide_eq_true_eq]
  exact ⟨hov.1, hov.2⟩

/-- A live appointment of provider 1 starting the evening before the
queried day and extending two hours into it (minutes 1439–1560). -/
def exLongAppt : Appointment :=
  { id := 21, tenant_id := 1, patient_id := 6, provider_id := 1,
    series_id := none, scheduled_start := 1439, scheduled_end := 1560,
    duration_minutes := 121, status := .scheduled }

/-- The store holding only `exLongAppt`. -/
def exDb9 : DB := { appointments := [exLongAppt], series := [] }

/-- Monday availability 00:00–02:00 in 60-minute slots for provider 1. -/
def exRule : AvailabilityRule :=
  { provider_id := 1, facility_id := 1, day_of_week := 1,
    start_hour := 0, start_minute := 0, end_hour := 2, end_minute := 0,
    slot_duration := 60, is_available := true, effective_from := 0,
    effective_until := none }

/-- C9 counterexample: querying day 1 (minutes 1440–2880) returns the
slots `[1440, 1500)` and `[1500, 1560)` even though both overlap the
live appointment `exLongAppt` — its `scheduled_start` 1439 falls before
`startDate`, so the booked-appointments query misses it — and booking
the first returned slot through the Conflict Checker indeed fails. -/
theorem C9_counterexample :
    (findAvailableSlots exDb9 [exRule] 1 (some 1) 1440 1440 1440 0).map
      (fun s => s.start_time) = [1440, 1500] ∧
    exLongAppt.status.isLive = true ∧
    hasConflict exDb9.appointments 1 1440 1500 = true := by
  exact ⟨by decide, rfl, by decide⟩

/-- Sunday availability 10:00–12:00 in 60-minute slots for provider 1. -/
def exRule0 : AvailabilityRule :=
  { provider_id := 1, facility_id := 1, day_of_week := 0,
    start_hour := 10, start_minute := 0, end_hour := 12, end_minute := 0,
    slot_duration := 60, is_available := true, effective_from := 0,
    effective_until := none }

/-- C9 witness: the amended statement applied to the slot `[660, 720)`
returned when querying day 0 against the store holding `exA1`
(`[600, 660)` is booked and correctly not returned), instantiated at
`exA1` itself. -/
theorem C9_amended_witness :
    ¬((660 : Nat) < exA1.scheduled_end ∧ exA1.scheduled_start < 720) :=
  (C9_amended exDb1 [exRule0] 1 (some 1) 0 1439 0 0
    { provider_id := 1, facility_id := 1, start_time := 660,
      end_time := 720, duration_minutes := 60 } (by decide)).2
    exA1 (by decide) rfl rfl rfl (by decide) (by decide)

/-! ### Medication reminders (`MedicationService.queueMedicationReminders`) -/

/-- Whether the character list `s` starts with `pat`. -/
def listStartsWith : List Char → List Char → Bool
  | _, [] => true
  | [], _ :: _ => false
  | a :: as, b :: bs => a == b && listStartsWith as bs

/-- Whether `pat` occurs anywhere inside `s` (JS `String.includes`). -/
def listHasSub : List Char → List Char → Bool
  | [], pat => listStartsWith [] pat
  | c :: rest, pat => listStartsWith (c :: rest) pat || listHasSub rest pat

/-- JS `toLowerCase()` at the character-list level. -/
def strToLower (s : String) : List Char :=
  s.toList.map Char.toLower

/-- JS `f.includes(pat)` against the lowercased frequency. -/
def hasSub (f : List Char) (pat : String) : Bool :=
  listHasSub f pat.toList

/-- `MedicationService.parseFrequencyToReminderTimes`: exact
`schedule_details.times` entries (pre-parsed `"HH:MM"` pairs) win;
otherwise the lowercased frequency string is pattern-matched; the
fallback is once daily at 9 AM. -/
def parseFrequencyToReminderTimes (frequency : String)
    (scheduleTimes : Option (List (Nat × Nat))) : List (Nat × Nat) :=
  match scheduleTimes with
  | some ts => ts
  | none =>
    let f := strToLower frequency
    if hasSub f "once" || hasSub f "1 time" then [(9, 0)]
    else if hasSub f "twice" || hasSub f "2 time" then [(9, 0), (21, 0)]
    else if hasSub f "three" || hasSub f "3 time" then
      [(9, 0), (15, 0), (21, 0)]
    else if hasSub f "four" || hasSub f "4 time" then
      [(9, 0), (13, 0), (17, 0), (21, 0)]
    else if hasSub f "every 8 hour" then [(8, 0), (16, 0), (0, 0)]
    else if hasSub f "every 6 hour" then
      [(8, 0), (14, 0), (20, 0), (2, 0)]
    else if hasSub f "every 4 hour" then
      [(8, 0), (12, 0), (16, 0), (20, 0), (0, 0), (4, 0)]
    else [(9, 0)]

/-- The `medications` columns driving reminder scheduling. -/
structure Medication where
  id : Nat
  patient_id : Nat
  frequency : String
  schedule_times : Option (List (Nat × Nat))
  start_date : Nat
  end_date : Option Nat
  days_supply : Option Nat
  is_ongoing : Bool
deriving DecidableEq, Repr

/-- JS truthiness of an optional number: `0` is falsy. -/
def truthyNat : Option Nat → Option Nat
  | some v => if v = 0 then none else some v
  | none => none

/-- The reminder horizon of `queueMedicationReminders`: `end_date`,
else `start_date + days_supply` days (a falsy `days_supply` skipped),
else 90 days when `is_ongoing`, else 30 days. -/
def medHorizon (med : Medication) : Nat :=
  match med.end_date with
  | some e => e
  | none =>
    match truthyNat med.days_supply with
    | some ds => med.start_date + 1440 * ds
    | none =>
      if med.is_ongoing then med.start_date + 1440 * 90
      else med.start_date + 1440 * 30

/-- Modelled from the spec: the reminder horizon "is the medication's
end_date if present, otherwise start_date plus days_supply, otherwise
90 days for ongoing medications, otherwise 30 days". -/
def medReminderHorizonSpec (med : Medication) : Nat :=
  match med.end_date with
  | some e => e
  | none =>
    match med.days_supply with
    | some ds => med.start_date + 1440 * ds
    | none =>
      if med.is_ongoing then med.start_date + 1440 * 90
      else med.start_date + 1440 * 30

/-- The day loop of `queueMedicationReminders`:
`while (currentDate <= endDate && reminderCount < maxReminders)` with
`maxReminders = 500`; within a day every reminder time is emitted when
strictly in the future, and only emitted reminders are counted. The cap
is re-checked only at day boundaries. -/
def remLoop (times : List (Nat × Nat)) (now : Nat) :
    List Nat → Nat → List Nat
  | [], _count => []
  | d :: rest, count =>
    if count < 500 then
      let dayRems := times.filterMap (fun hm =>
        if now < d + hm.1 * 60 + hm.2 then some (d + hm.1 * 60 + hm.2) else none)
      dayRems ++ remLoop times now rest (count + dayRems.length)
    else []

/-- `MedicationService.queueMedicationReminders`: the
`scheduledFor` instants of the published `medication_reminder` queue
messages (the optional `medication_refill_reminder` is a different
message type and is not part of this list). -/
def queueMedicationReminders (med : Medication) (now : Nat) : List Nat :=
  remLoop (parseFrequencyToReminderTimes med.frequency med.schedule_times) now
    (dayList (startOfDayMin med.start_date) (medHorizon med)) 0

/-- An exhausted loop emits nothing. -/
lemma remLoop_eq_nil_of_ge {times : List (Nat × Nat)} {now count : Nat}
    (days : List Nat) (h : ¬ count < 500) :
    remLoop times now days count = [] := by
  cases days with
  | nil => rfl
  | cons d rest => simp only [remLoop, if_neg h]

/-- Every emitted reminder is strictly in the future. -/
lemma remLoop_future {times : List (Nat × Nat)} {now : Nat} :
    ∀ (days : List Nat) (count : Nat) (t : Nat),
      t ∈ remLoop times now days count → now < t := by
  intro days
  induction days with
  | nil => intro count t ht; cases ht
  | cons d rest ih =>
    intro count t ht
    rw [remLoop] at ht
    split at ht
    · rw [List.mem_append] at ht
      rcases ht with ht | ht
      · rw [List.mem_filterMap] at ht
        obtain ⟨hm, -, hf⟩ := ht
        split at hf
        · rename_i hfut
          cases hf
          exact hfut
        · cases hf
      · exact ih _ t ht
    · cases ht

/-- The emitted count overshoots the 500 cap by less than one day's
worth of reminder times. -/
lemma remLoop_length_le (times : List (Nat × Nat)) (now : Nat) :
    ∀ (days : List Nat) (count : Nat), count < 500 →
      (remLoop times now days count).length + count ≤ 499 + times.length := by
  intro days
  induction days with
  | nil =>
    intro count hc
    simp only [remLoop, List.length_nil]
    omega
  | cons d rest ih =>
    intro count hc
    rw [remLoop, if_pos hc]
    have hday : (times.filterMap (fun hm =>
        if now < d + hm.1 * 60 + hm.2 then some (d + hm.1 * 60 + hm.2)
        else none)).length ≤ times.length := List.length_filterMap_le _ _
    rw [List.length_append]
    by_cases hnext : count + (times.filterMap (fun hm =>
        if now < d + hm.1 * 60 + hm.2 then some (d + hm.1 * 60 + hm.2)
        else none)).length < 500
    · have := ih _ hnext
      omega
    · rw [remLoop_eq_nil_of_ge rest hnext]
      simp only [List.length_nil]
      omega

/-- C10 (amended): every published medication reminder is strictly in
the future, and `queueMedicationReminders` publishes at most
`499 + k` reminders where `k` is the number of reminder times per day —
the 500 cap is enforced only at day boundaries, so the last processed
day can push past it (see the counterexample); the horizon is as the
claim states it whenever `days_supply` is not the JS-falsy `0`. -/
theorem C10_amended :
    (∀ (med : Medication) (now : Nat),
      ∀ t ∈ queueMedicationReminders med now, now < t) ∧
    (∀ (med : Medication) (now : Nat),
      (queueMedicationReminders med now).length ≤
        499 + (parseFrequencyToReminderTimes med.frequency
          med.schedule_times).length) ∧
    (∀ med : Medication, med.days_supply ≠ some 0 →
      medHorizon med = medReminderHorizonSpec med) := by
  refine ⟨?_, ?_, ?_⟩
  · intro med now t ht
    exact remLoop_future _ _ t ht
  · intro med now
    have h := remLoop_length_le
      (parseFrequencyToReminderTimes med.frequency med.schedule_times) now
      (dayList (startOfDayMin med.start_date) (medHorizon med)) 0 (by omega)
    unfold queueMedicationReminders
    omega
  · intro med hds
    unfold medHorizon medReminderHorizonSpec
    cases med.end_date with
    | some e => rfl
    | none =>
      cases hd : med.days_supply with
      | none => rfl
      | some ds =>
        have hne : ds ≠ 0 := by
          intro h0
          exact hds (by rw [hd, h0])
        simp only [truthyNat, if_neg hne]

/-- A six-dose-per-day ongoing medication starting at day 1. -/
def exMed : Medication :=
  { id := 1, patient_id := 1, frequency := "Every 4 hours",
    schedule_times := none, start_date := 1440, end_date := none,
    days_supply := none, is_ongoing := true }

set_option maxRecDepth 8000 in
/-- C10 counterexample: with six daily doses ("Every 4 hours") and a
90-day ongoing horizon, the day-boundary-only cap check lets the count
reach 504 — 84 full days of 6 reminders — exceeding the claimed
maximum of 500. -/
theorem C10_counterexample :
    (queueMedicationReminders exMed 0).length = 504 ∧
    ¬((queueMedicationReminders exMed 0).length ≤ 500) := by
  exact ⟨by decide, by decide⟩

/-- C10 witness: the amended statements instantiated concretely — the
first published reminder of `exMed` (minute 1920, i.e. day 1 at 8 AM)
is strictly future, the published count is bounded by `499 + 6`, and
the horizon of `exMed` matches the spec formula. -/
theorem C10_amended_witness :
    (0 : Nat) < 1920 ∧
    (queueMedicationReminders exMed 0).length ≤
      499 + (parseFrequencyToReminderTimes exMed.frequency
        exMed.schedule_times).length ∧
    medHorizon exMed = medReminderHorizonSpec exMed :=
  ⟨C10_amended.1 exMed 0 1920 (by decide),
   C10_amended.2.1 exMed 0,
   C10_amended.2.2 exMed (by decide)⟩

end ChronicCare
